import Mathlib

/-!
Verification of the Triton pintool instrumentation orchestrator
(src/src/tracer/pin/main.cpp).

The per-instruction pipeline, the analysis trigger, the range selector
(`checkUnlockAnalysis`), the image blacklist/whitelist filter, the
snapshot-capture callback, the image-load instrumentation and the signal
callback are embedded as pure Lean functions over an explicit state record.
Collaborating pieces that live outside main.cpp (trigger.cpp, context.cpp,
snapshot.cpp, utils.cpp, the Python callback dispatcher) are modelled from
the specification, each marked in its doc comment.
-/

/-- Modelled from the spec: the process environment the pintool queries
through Pin / utils.cpp, none of which is under src/.  `symbolAt` stands for
`RTN_FindNameByAddress`, `imageName` for `tracer::pintool::getImageName`,
`imageBase` for the owning image base used by `getInsOffset`, and `memByte`
for a live read of one byte of program memory. -/
structure Env where
  symbolAt : Nat → String
  imageName : Nat → List Char
  imageBase : Nat → Nat
  memByte : Nat → Nat

/-- Modelled from the spec: `tracer::pintool::getInsOffset` (utils.cpp, not
under src/) returns the address minus its owning image base. -/
def getInsOffset (env : Env) (address : Nat) : Nat :=
  address - env.imageBase address

/-- The mutable option globals of `tracer::pintool::options` that main.cpp
reads and writes.  `targetThreadId` is `-1` when unset;
`startAnalysisFromSymbol` is `none` for the C++ `nullptr`; the two
`startAnalysisFrom{Addr,Offset}` sets are kept as duplicate-free lists; the
image blacklist and whitelist hold the substrings matched against image
paths. -/
structure Options where
  targetThreadId : Int
  startAnalysisFromSymbol : Option String
  startAnalysisFromAddr : List Nat
  startAnalysisFromOffset : List Nat
  startAnalysisFromEntry : Bool
  imageBlacklist : List (List Char)
  imageWhitelist : List (List Char)
deriving DecidableEq

/-- The process-wide mutable state of the pintool: the analysis trigger
(`trigger.cpp`, a plain boolean per the spec), the context-override flag
`tracer::pintool::context::mustBeExecuted`, the snapshot engine's
restore-pending flag, lock flag and recorded byte map (snapshot.cpp,
modelled from the spec), and the option globals. -/
structure TracerState where
  trigger : Bool
  mustBeExecuted : Bool
  mustBeRestored : Bool
  snapshotLocked : Bool
  snapshotMods : List (Nat × Nat)
  opts : Options
deriving DecidableEq

/-- One observable action of a callback, in the order it happens.  Hook
events name the Python dispatcher entry points of bindings.cpp; the others
are the calls into the Triton API, the snapshot engine and the context
engine that main.cpp makes. -/
inductive Event where
  | preProcessing (threadId : Int)
  | setupIns
  | disassembly
  | beforeIRProc
  | instructionReset
  | executeContext
  | buildSemantics
  | beforeHook
  | restoreSnapshot
  | postProcessing (threadId : Int)
  | signalsHook (threadId : Int) (sig : Int)
  | exitProcess
  | addModification (address : Nat) (byte : Nat)
  | imageLoad (path : List Char) (base : Nat) (size : Nat)
deriving DecidableEq

/-- Modelled from the spec: the external callback dispatcher
(bindings.cpp / callbacks.cpp, not under src/).  Each hook may mutate the
shared tracer state through the Python API; `signalsRestores` records
whether the user signal hook triggers the restore path (a control transfer)
instead of returning. -/
structure UserHooks where
  preProcessing : TracerState → TracerState
  beforeIRProc : TracerState → TracerState
  before : TracerState → TracerState
  postProcessing : TracerState → TracerState
  signals : TracerState → TracerState
  signalsRestores : Bool

/-- `toggleWrapper(true)` followed by `targetThreadId = PIN_ThreadId()`:
the state change performed by every unlocking branch of
`checkUnlockAnalysis`. -/
def unlockAt (tid : Int) (s : TracerState) : TracerState :=
  { s with trigger := true, opts := { s.opts with targetThreadId := tid } }

/-- `tracer::pintool::checkUnlockAnalysis` (main.cpp): returns whether the
analysis was unlocked at this address, together with the updated state.
`tid` is `PIN_ThreadId()` for the calling thread. -/
def checkUnlockAnalysis (env : Env) (tid : Int) (address : Nat)
    (s : TracerState) : Bool × TracerState :=
  if s.opts.targetThreadId ≠ -1 then (false, s)
  else
    match s.opts.startAnalysisFromSymbol with
    | some sym =>
        if env.symbolAt address = sym then (true, unlockAt tid s)
        else (false, s)
    | none =>
        if address ∈ s.opts.startAnalysisFromAddr then (true, unlockAt tid s)
        else if getInsOffset env address ∈ s.opts.startAnalysisFromOffset then
          (true, unlockAt tid s)
        else (false, s)

/-- `needle` occurs at the very start of `hay` (the inner comparison loop of
C `strstr`). -/
def startsWithB : List Char → List Char → Bool
  | [], _ => true
  | _ :: _, [] => false
  | a :: as, b :: bs => (a == b) && startsWithB as bs

/-- C `strstr` as used by the image filter: does `hay` contain `needle` as a
contiguous substring? -/
def strstrB (needle : List Char) : List Char → Bool
  | [] => startsWithB needle []
  | c :: rest => startsWithB needle (c :: rest) || strstrB needle rest

/-- `tracer::pintool::instructionBlacklisted` (main.cpp): some blacklist
substring occurs in the image path owning the address. -/
def instructionBlacklisted (env : Env) (opts : Options) (address : Nat) : Bool :=
  opts.imageBlacklist.any (fun b => strstrB b (env.imageName address))

/-- `tracer::pintool::instructionWhitelisted` (main.cpp): an empty whitelist
admits everything; otherwise some whitelist substring must occur in the
image path owning the address. -/
def instructionWhitelisted (env : Env) (opts : Options) (address : Nat) : Bool :=
  if opts.imageWhitelist.isEmpty then true
  else opts.imageWhitelist.any (fun w => strstrB w (env.imageName address))

/-- The exclusion test exactly as `TRACE_Instrumentation` applies it:
`instructionBlacklisted(addr) == true || instructionWhitelisted(addr) == false`. -/
def imageExcluded (env : Env) (opts : Options) (address : Nat) : Bool :=
  instructionBlacklisted env opts address || !(instructionWhitelisted env opts address)

/-- Modelled from the spec: `Snapshot::restoreSnapshot` (snapshot.cpp, not
under src/) writes every recorded byte back, reapplies the captured
registers into the context, and clears the recorded map and the
restore-pending flag, leaving the lock state unchanged. -/
def restoreSnapshotState (s : TracerState) : TracerState :=
  { s with mustBeRestored := false, snapshotMods := [] }

/-- Modelled from the spec: `tracer::pintool::context::executeContext`
(context.cpp, not under src/) applies the queued override context to the
live thread state via the DBI engine (`PIN_ExecuteAt`) and clears the
must-execute flag; the control transfer means the remainder of the current
callback does not run, short-circuiting semantics building for this dynamic
execution. -/
def executeContextState (s : TracerState) : TracerState :=
  { s with mustBeExecuted := false }

/-- `tracer::pintool::callbackBefore` (main.cpp): the before-execution
pipeline for one dynamic execution of one instruction.  Returns the final
tracer state and the ordered list of observable actions.  The
`Event.setupIns` entry covers the context-reference update, `partialReset`,
`setOpcodes`, `setAddress`, `setThreadId` and `setupContextRegister` block;
operand trust flags carry no analysed state and are left implicit. -/
def callbackBefore (hooks : UserHooks) (tid : Int) (s : TracerState) :
    TracerState × List Event :=
  let s1 := hooks.preProcessing s
  if s1.trigger = false ∨ tid ≠ s1.opts.targetThreadId then
    (s1, [Event.preProcessing tid])
  else
    let t1 : List Event := [Event.preProcessing tid, Event.setupIns, Event.disassembly]
    let p2 : TracerState × List Event :=
      if s1.mustBeExecuted = false then
        (hooks.beforeIRProc s1, t1 ++ [Event.beforeIRProc])
      else ({ s1 with mustBeExecuted := false }, t1)
    if p2.1.mustBeExecuted = true then
      (executeContextState p2.1, p2.2 ++ [Event.instructionReset, Event.executeContext])
    else
      let t3 := p2.2 ++ [Event.buildSemantics]
      let p3 : TracerState × List Event :=
        if p2.1.mustBeExecuted = false then (hooks.before p2.1, t3 ++ [Event.beforeHook])
        else (p2.1, t3)
      let p4 : TracerState × List Event :=
        if p3.1.mustBeRestored = true then
          (restoreSnapshotState p3.1, p3.2 ++ [Event.instructionReset, Event.restoreSnapshot])
        else (p3.1, p3.2)
      (hooks.postProcessing p4.1, p4.2 ++ [Event.postProcessing tid])

/-- Modelled from the spec: `Snapshot::addModification` (snapshot.cpp, not
under src/) records the original byte for an address only if the snapshot is
not locked and no byte is already recorded for that address
(first-write-wins). -/
def addModificationState (address byte : Nat) (s : TracerState) : TracerState :=
  if s.snapshotLocked then s
  else if (s.snapshotMods.lookup address).isSome then s
  else { s with snapshotMods := s.snapshotMods ++ [(address, byte)] }

/-- `tracer::pintool::callbackSnapshot` (main.cpp): before an instruction
writes `writeSize` bytes at `mem`, save each byte's current value into the
snapshot.  The function takes no thread id, mirroring the source signature;
it is gated only by the trigger and the snapshot lock. -/
def callbackSnapshot (env : Env) (mem : Nat) (writeSize : Nat)
    (s : TracerState) : TracerState × List Event :=
  if s.trigger = false then (s, [])
  else if s.snapshotLocked = true then (s, [])
  else
    ((List.range writeSize).foldl
        (fun st i => addModificationState (mem + i) (env.memByte (mem + i)) st) s,
     (List.range writeSize).map
        (fun i => Event.addModification (mem + i) (env.memByte (mem + i))))

/-- `tracer::pintool::callbackSignals` (main.cpp): always invoke the user
signals hook (no trigger or thread gate), then `exit(0)` — unless the hook
triggered the restore path, which transfers control instead of returning. -/
def callbackSignals (hooks : UserHooks) (tid : Int) (sig : Int)
    (s : TracerState) : TracerState × List Event :=
  let s1 := hooks.signals s
  if hooks.signalsRestores then (s1, [Event.signalsHook tid sig])
  else (s1, [Event.signalsHook tid sig, Event.exitProcess])

/-- One loaded image as seen by `IMG_Instrumentation`: `entry` is
`IMG_Entry(img)`, `base` is `IMG_LowAddress(img)` and `size` the span used
by the image-load notification. -/
structure Image where
  name : List Char
  entry : Nat
  base : Nat
  size : Nat
deriving DecidableEq

/-- `std::set::insert` on the address set: a no-op when the address is
already present. -/
def insertAddr (a : Nat) (l : List Nat) : List Nat :=
  if a ∈ l then l else a :: l

/-- `tracer::pintool::IMG_Instrumentation` (main.cpp) restricted to its
effect on the shared state plus the image-load notification: when the
from-entry-point request is pending, clear it and insert the image's entry
address into the from-address set.  The `RTN_InsertCall` registrations for
the start symbol and the routine-entry/exit callbacks install
instrumentation but modify no option state and are left implicit. -/
def IMG_Instrumentation (img : Image) (s : TracerState) :
    TracerState × List Event :=
  let s1 :=
    if s.opts.startAnalysisFromEntry then
      { s with opts := { s.opts with
          startAnalysisFromEntry := false,
          startAnalysisFromAddr := insertAddr img.entry s.opts.startAnalysisFromAddr } }
    else s
  (s1, [Event.imageLoad img.name img.base img.size])

/-- The state after `IMG_Instrumentation` has run on each image of a load
sequence in order. -/
def imgLoadFold (imgs : List Image) (s : TracerState) : TracerState :=
  imgs.foldl (fun st i => (IMG_Instrumentation i st).1) s

/-- One instruction as inspected by `TRACE_Instrumentation`; only the
address feeds the unlock check and the image filter. -/
structure InsInfo where
  address : Nat
deriving DecidableEq

/-- The body of the instruction loop of `TRACE_Instrumentation` (main.cpp):
run `checkUnlockAnalysis` on the address, skip instrumentation when the
trigger is still off or the image filter excludes the address, and
otherwise record the address as instrumented (standing for the
`INS_InsertCall` registrations of the before/after/memory/snapshot
callbacks). -/
def traceInstrumentationStep (env : Env) (tid : Int)
    (acc : TracerState × List Nat) (ins : InsInfo) : TracerState × List Nat :=
  let s1 := (checkUnlockAnalysis env tid ins.address acc.1).2
  if s1.trigger = false then (s1, acc.2)
  else if imageExcluded env s1.opts ins.address = true then (s1, acc.2)
  else (s1, acc.2 ++ [ins.address])

/-- `tracer::pintool::TRACE_Instrumentation` (main.cpp): process every
instruction of a trace in order, returning the final state and the list of
instrumented addresses.  `tid` is the thread id returned by
`PIN_ThreadId()` during jitting. -/
def TRACE_Instrumentation (env : Env) (tid : Int) (inss : List InsInfo)
    (s : TracerState) : TracerState × List Nat :=
  inss.foldl (traceInstrumentationStep env tid) (s, [])

/-! Concrete fixtures used by witnesses and counterexamples. -/

/-- A small concrete environment: every address lives in an image whose
path is `libc`, at base 0, and memory reads 7 everywhere. -/
def env0 : Env :=
  { symbolAt := fun _ => ""
    imageName := fun _ => ['l', 'i', 'b', 'c']
    imageBase := fun _ => 0
    memByte := fun _ => 7 }

/-- Concrete options: analysis starts from address 4096, no symbol, no
filter lists, target thread unset. -/
def opts0 : Options :=
  { targetThreadId := -1
    startAnalysisFromSymbol := none
    startAnalysisFromAddr := [4096]
    startAnalysisFromOffset := []
    startAnalysisFromEntry := false
    imageBlacklist := []
    imageWhitelist := [] }

/-- Concrete initial tracer state over `opts0`, trigger off. -/
def st0 : TracerState :=
  { trigger := false
    mustBeExecuted := false
    mustBeRestored := false
    snapshotLocked := false
    snapshotMods := []
    opts := opts0 }

/-- `st0` after thread 3 has claimed the analysis. -/
def st3 : TracerState :=
  { st0 with opts := { opts0 with targetThreadId := 3 } }

/-- User hooks that do nothing: every hook returns the state unchanged and
the signal hook simply returns. -/
def hooksId : UserHooks :=
  { preProcessing := fun s => s
    beforeIRProc := fun s => s
    before := fun s => s
    postProcessing := fun s => s
    signals := fun s => s
    signalsRestores := false }

/-- If the from-entry-point request is not pending, image loads leave the
tracer state untouched. -/
theorem imgLoadFold_noEntry (imgs : List Image) :
    ∀ s : TracerState, s.opts.startAnalysisFromEntry = false →
      imgLoadFold imgs s = s := by
  induction imgs with
  | nil => intro s _; rfl
  | cons i rest ih =>
      intro s h
      have hstep : (IMG_Instrumentation i s).1 = s := by
        simp [IMG_Instrumentation, h]
      calc imgLoadFold (i :: rest) s
          = imgLoadFold rest (IMG_Instrumentation i s).1 := rfl
        _ = imgLoadFold rest s := by rw [hstep]
        _ = s := ih s h

/-- C3: once `targetThreadId` is set (≠ -1), every call to
`checkUnlockAnalysis` returns false and leaves the whole state — in
particular `targetThreadId` and the trigger — unchanged, whatever the
address. -/
theorem checkUnlockAnalysis_oneShot (env : Env) (tid : Int) (address : Nat)
    (s : TracerState) (h : s.opts.targetThreadId ≠ -1) :
    checkUnlockAnalysis env tid address s = (false, s) := by
  simp [checkUnlockAnalysis, h]

/-- Witness for C3: with the target thread already set to 3, the check at
address 4096 — an address that satisfies the configured start condition —
returns false and changes nothing. -/
theorem checkUnlockAnalysis_oneShot_witness :
    checkUnlockAnalysis env0 7 4096 st3 = (false, st3) :=
  checkUnlockAnalysis_oneShot env0 7 4096 st3 (by decide)

/-- C5: with the target thread unset and no from-symbol condition,
`checkUnlockAnalysis` returns true exactly when the address is in the
from-address set or, failing that, its image offset is in the from-offset
set; and on returning true it sets `targetThreadId` to the calling thread
and flips the trigger on. -/
theorem checkUnlockAnalysis_addrOffset (env : Env) (tid : Int) (address : Nat)
    (s : TracerState) (h1 : s.opts.targetThreadId = -1)
    (h2 : s.opts.startAnalysisFromSymbol = none) :
    ((checkUnlockAnalysis env tid address s).1 = true ↔
      address ∈ s.opts.startAnalysisFromAddr ∨
      getInsOffset env address ∈ s.opts.startAnalysisFromOffset) ∧
    ((checkUnlockAnalysis env tid address s).1 = true →
      (checkUnlockAnalysis env tid address s).2 = unlockAt tid s) := by
  have h1' : ¬ (s.opts.targetThreadId ≠ -1) := by simp [h1]
  by_cases ha : address ∈ s.opts.startAnalysisFromAddr
  · simp [checkUnlockAnalysis, h2, if_neg h1', ha]
  · by_cases ho : getInsOffset env address ∈ s.opts.startAnalysisFromOffset
    · simp [checkUnlockAnalysis, h2, if_neg h1', ha, ho]
    · simp [checkUnlockAnalysis, h2, if_neg h1', ha, ho]

/-- Witness for C5: from the initial state, thread 7 hitting address 4096
(a member of the from-address set) unlocks the analysis and claims the
target thread. -/
theorem checkUnlockAnalysis_addrOffset_witness :
    (checkUnlockAnalysis env0 7 4096 st0).1 = true ∧
    (checkUnlockAnalysis env0 7 4096 st0).2 = unlockAt 7 st0 :=
  have h := checkUnlockAnalysis_addrOffset env0 7 4096 st0 rfl rfl
  have hm : (checkUnlockAnalysis env0 7 4096 st0).1 = true :=
    h.1.mpr (Or.inl (by decide))
  ⟨hm, h.2 hm⟩

/-- C6: the filter used before instrumenting an instruction excludes an
address exactly when some blacklist substring occurs in its image path
(regardless of any whitelist match), or, with no blacklist match, when the
whitelist is non-empty and no whitelist substring occurs in the path. -/
theorem imageExcluded_spec (env : Env) (opts : Options) (address : Nat) :
    imageExcluded env opts address = true ↔
      ((∃ b ∈ opts.imageBlacklist, strstrB b (env.imageName address) = true) ∨
       (opts.imageWhitelist ≠ [] ∧
        ∀ w ∈ opts.imageWhitelist, strstrB w (env.imageName address) = false)) := by
  by_cases hw : opts.imageWhitelist = []
  · simp [imageExcluded, instructionBlacklisted, instructionWhitelisted, hw,
      List.any_eq_true]
  · simp [imageExcluded, instructionBlacklisted, instructionWhitelisted, hw,
      List.any_eq_true, List.isEmpty_iff]

/-- C7: with the from-entry-point request pending, the first image load
inserts that image's entry address into the from-address set and clears the
request, and no later image load changes the set again. -/
theorem IMG_Instrumentation_entryOnce (img : Image) (rest : List Image)
    (s : TracerState) (h : s.opts.startAnalysisFromEntry = true) :
    (imgLoadFold (img :: rest) s).opts.startAnalysisFromAddr
        = insertAddr img.entry s.opts.startAnalysisFromAddr ∧
    (imgLoadFold (img :: rest) s).opts.startAnalysisFromEntry = false := by
  have hstep : (IMG_Instrumentation img s).1 =
      { s with opts := { s.opts with
          startAnalysisFromEntry := false,
          startAnalysisFromAddr := insertAddr img.entry s.opts.startAnalysisFromAddr } } := by
    simp [IMG_Instrumentation, h]
  have hfold : imgLoadFold (img :: rest) s
      = imgLoadFold rest (IMG_Instrumentation img s).1 := rfl
  rw [hfold, hstep, imgLoadFold_noEntry rest _ (by simp)]
  exact ⟨rfl, rfl⟩

/-- Witness for C7: with the entry request pending, loading an image with
entry 100 and then a second image with entry 200 leaves exactly 100
inserted and the request cleared. -/
theorem IMG_Instrumentation_entryOnce_witness :
    (imgLoadFold
        [{ name := ['a'], entry := 100, base := 0, size := 10 },
         { name := ['b'], entry := 200, base := 50, size := 10 }]
        { st0 with opts := { opts0 with startAnalysisFromEntry := true } }
      ).opts.startAnalysisFromAddr
        = insertAddr 100
            ({ st0 with opts := { opts0 with startAnalysisFromEntry := true } } :
              TracerState).opts.startAnalysisFromAddr ∧
    (imgLoadFold
        [{ name := ['a'], entry := 100, base := 0, size := 10 },
         { name := ['b'], entry := 200, base := 50, size := 10 }]
        { st0 with opts := { opts0 with startAnalysisFromEntry := true } }
      ).opts.startAnalysisFromEntry = false :=
  IMG_Instrumentation_entryOnce
    { name := ['a'], entry := 100, base := 0, size := 10 }
    [{ name := ['b'], entry := 200, base := 50, size := 10 }]
    { st0 with opts := { opts0 with startAnalysisFromEntry := true } } rfl

/-- `st3` with the trigger on: analysis running on thread 3, no override
pending. -/
def stRun : TracerState := { st3 with trigger := true }

/-- `stRun` with a context-override already pending when the callback
starts. -/
def stOv : TracerState := { stRun with mustBeExecuted := true }

/-- Hooks that do nothing except that the before-IR hook queues a
context-override. -/
def hooksSet : UserHooks :=
  { hooksId with beforeIRProc := fun s => { s with mustBeExecuted := true } }

/-- C4: the preProcessing hook is always invoked first; and when the
trigger is off or the calling thread is not the target thread (as read
right after the preProcessing hook), the callback returns at once, its
whole effect being the preProcessing hook — no setup, disassembly,
semantics building, or beforeIRProc/before/postProcessing invocation. -/
theorem callbackBefore_preGate (hooks : UserHooks) (tid : Int) (s : TracerState) :
    ((callbackBefore hooks tid s).2.head? = some (Event.preProcessing tid)) ∧
    ((hooks.preProcessing s).trigger = false ∨ tid ≠ (hooks.preProcessing s).opts.targetThreadId →
      callbackBefore hooks tid s = (hooks.preProcessing s, [Event.preProcessing tid])) := by
  by_cases hg : (hooks.preProcessing s).trigger = false ∨ tid ≠ (hooks.preProcessing s).opts.targetThreadId
  · simp [callbackBefore, hg]
  · refine ⟨?_, fun h => absurd h hg⟩
    by_cases h8 : (hooks.preProcessing s).mustBeExecuted = false
    · by_cases h9 : (hooks.beforeIRProc (hooks.preProcessing s)).mustBeExecuted = true
      · simp [callbackBefore, hg, h8, h9]
      · by_cases hr : (hooks.before (hooks.beforeIRProc (hooks.preProcessing s))).mustBeRestored = true
        · simp [callbackBefore, hg, h8, h9, hr]
        · simp [callbackBefore, hg, h8, h9, hr]
    · by_cases hr : (hooks.before { hooks.preProcessing s with mustBeExecuted := false }).mustBeRestored = true
      · simp [callbackBefore, hg, h8, hr]
      · simp [callbackBefore, hg, h8, hr]

/-- Witness for C4: analysis claimed by thread 3 but trigger off; the
callback for thread 3 performs exactly the preProcessing hook and returns. -/
theorem callbackBefore_preGate_witness :
    (callbackBefore hooksId 3 st3).2.head? = some (Event.preProcessing 3) ∧
    callbackBefore hooksId 3 st3 = (st3, [Event.preProcessing 3]) :=
  ⟨(callbackBefore_preGate hooksId 3 st3).1,
   (callbackBefore_preGate hooksId 3 st3).2 (Or.inl rfl)⟩

/-- Counterexample to C1 as stated: with the trigger on, thread matching,
and a context-override ALREADY pending when the sequence reaches the
before-IR stage (and a before-IR hook that does nothing), the callback
clears the pending flag and never invokes `executeContext` (nor the reset
that would precede it) during that dynamic execution. -/
theorem callbackBefore_pendingOverride_dropped :
    stOv.mustBeExecuted = true ∧
    Event.executeContext ∉ (callbackBefore hooksId 3 stOv).2 ∧
    Event.instructionReset ∉ (callbackBefore hooksId 3 stOv).2 ∧
    (callbackBefore hooksId 3 stOv).1.mustBeExecuted = false := by
  decide

/-- C1 (amended): the before sequence resets the Instruction and applies
the override via `executeContext` exactly when no override was pending at
the before-IR stage and the before-IR hook itself set one; an override
already pending when the stage is reached is instead cleared without being
applied in that dynamic execution.  When it fires, the reset and
`executeContext` happen in that order in the same execution. -/
theorem callbackBefore_executeContext_iff (hooks : UserHooks) (tid : Int)
    (s : TracerState) :
    (Event.executeContext ∈ (callbackBefore hooks tid s).2 ↔
      ((hooks.preProcessing s).trigger = true ∧
       tid = (hooks.preProcessing s).opts.targetThreadId ∧
       (hooks.preProcessing s).mustBeExecuted = false ∧
       (hooks.beforeIRProc (hooks.preProcessing s)).mustBeExecuted = true)) ∧
    ((hooks.preProcessing s).trigger = true →
     tid = (hooks.preProcessing s).opts.targetThreadId →
     (hooks.preProcessing s).mustBeExecuted = false →
     (hooks.beforeIRProc (hooks.preProcessing s)).mustBeExecuted = true →
     (callbackBefore hooks tid s).2 =
       [Event.preProcessing tid, Event.setupIns, Event.disassembly,
        Event.beforeIRProc, Event.instructionReset, Event.executeContext]) := by
  by_cases hg : (hooks.preProcessing s).trigger = false ∨ tid ≠ (hooks.preProcessing s).opts.targetThreadId
  · constructor
    · simp only [callbackBefore, if_pos hg]
      constructor
      · intro hmem; simp at hmem
      · rintro ⟨ht, htid, -, -⟩
        rcases hg with hg | hg
        · rw [ht] at hg; cases hg
        · exact absurd htid hg
    · intro ht htid _ _
      rcases hg with hg | hg
      · rw [ht] at hg; cases hg
      · exact absurd htid hg
  · have ht : (hooks.preProcessing s).trigger = true := by
      rcases Bool.eq_false_or_eq_true (hooks.preProcessing s).trigger with h | h
      · exact h
      · exact absurd (Or.inl h) hg
    have htid : tid = (hooks.preProcessing s).opts.targetThreadId := by
      by_contra hne
      exact hg (Or.inr hne)
    by_cases h8 : (hooks.preProcessing s).mustBeExecuted = false
    · by_cases h9 : (hooks.beforeIRProc (hooks.preProcessing s)).mustBeExecuted = true
      · constructor
        · simp [callbackBefore, hg, h8, h9, ht, htid]
        · intro _ _ _ _
          simp [callbackBefore, hg, h8, h9]
      · constructor
        · by_cases hr : (hooks.before (hooks.beforeIRProc (hooks.preProcessing s))).mustBeRestored = true
          · simp [callbackBefore, hg, h8, h9, hr]
          · simp [callbackBefore, hg, h8, h9, hr]
        · intro _ _ _ h9'
          exact absurd h9' h9
    · constructor
      · by_cases hr : (hooks.before { hooks.preProcessing s with mustBeExecuted := false }).mustBeRestored = true
        · simp [callbackBefore, hg, h8, hr]
        · simp [callbackBefore, hg, h8, hr]
      · intro _ _ h8' _
        exact absurd h8' h8

/-- Witness for the amended C1: the trigger is on for thread 3, no
override is pending, and a before-IR hook that queues one makes the
callback reset the Instruction and apply the override. -/
theorem callbackBefore_executeContext_iff_witness :
    (callbackBefore hooksSet 3 stRun).2 =
      [Event.preProcessing 3, Event.setupIns, Event.disassembly,
       Event.beforeIRProc, Event.instructionReset, Event.executeContext] :=
  (callbackBefore_executeContext_iff hooksSet 3 stRun).2 rfl rfl rfl rfl

/-- C2: whenever the before sequence applies a context-override
(`executeContext` fires at step 9), semantics building is not performed in
that dynamic execution: the override short-circuits IR construction. -/
theorem callbackBefore_overrideSkipsSemantics (hooks : UserHooks) (tid : Int)
    (s : TracerState)
    (h : Event.executeContext ∈ (callbackBefore hooks tid s).2) :
    Event.buildSemantics ∉ (callbackBefore hooks tid s).2 := by
  by_cases hg : (hooks.preProcessing s).trigger = false ∨ tid ≠ (hooks.preProcessing s).opts.targetThreadId
  · simp [callbackBefore, hg]
  · by_cases h8 : (hooks.preProcessing s).mustBeExecuted = false
    · by_cases h9 : (hooks.beforeIRProc (hooks.preProcessing s)).mustBeExecuted = true
      · simp [callbackBefore, hg, h8, h9]
      · exfalso
        by_cases hr : (hooks.before (hooks.beforeIRProc (hooks.preProcessing s))).mustBeRestored = true
        · simp [callbackBefore, hg, h8, h9, hr] at h
        · simp [callbackBefore, hg, h8, h9, hr] at h
    · exfalso
      by_cases hr : (hooks.before { hooks.preProcessing s with mustBeExecuted := false }).mustBeRestored = true
      · simp [callbackBefore, hg, h8, hr] at h
      · simp [callbackBefore, hg, h8, hr] at h

/-- Witness for C2: in the run where the before-IR hook queues an override,
`executeContext` fires and `buildSemantics` does not. -/
theorem callbackBefore_overrideSkipsSemantics_witness :
    Event.executeContext ∈ (callbackBefore hooksSet 3 stRun).2 ∧
    Event.buildSemantics ∉ (callbackBefore hooksSet 3 stRun).2 :=
  ⟨by decide, callbackBefore_overrideSkipsSemantics hooksSet 3 stRun (by decide)⟩

/-- C8: the snapshot-capture callback for a write of `writeSize` bytes at
`mem` saves the current byte at each of `mem .. mem+writeSize-1` exactly
when the trigger is on and the snapshot is unlocked; otherwise it does
nothing; and — mirroring its thread-id-free signature — its behaviour never
depends on which thread is the analysis target. -/
theorem callbackSnapshot_spec (env : Env) (mem writeSize : Nat) (s : TracerState) :
    (s.trigger = true ∧ s.snapshotLocked = false →
      (callbackSnapshot env mem writeSize s).2 =
        (List.range writeSize).map
          (fun i => Event.addModification (mem + i) (env.memByte (mem + i)))) ∧
    (s.trigger = false ∨ s.snapshotLocked = true →
      callbackSnapshot env mem writeSize s = (s, [])) ∧
    (∀ t : Int, (callbackSnapshot env mem writeSize
        { s with opts := { s.opts with targetThreadId := t } }).2 =
      (callbackSnapshot env mem writeSize s).2) := by
  refine ⟨?_, ?_, ?_⟩
  · rintro ⟨ht, hl⟩
    simp [callbackSnapshot, ht, hl]
  · rintro (h | h) <;> simp [callbackSnapshot, h]
  · intro t
    by_cases ht : s.trigger = false
    · simp [callbackSnapshot, ht]
    · by_cases hl : s.snapshotLocked = true
      · simp [callbackSnapshot, ht, hl]
      · simp [callbackSnapshot, ht, hl]

/-- Witness for C8: with the trigger on and the snapshot unlocked, a
two-byte write at address 8 records both bytes; with the trigger off
nothing is recorded. -/
theorem callbackSnapshot_spec_witness :
    ((callbackSnapshot env0 8 2 stRun).2 =
      (List.range 2).map
        (fun i => Event.addModification (8 + i) (env0.memByte (8 + i)))) ∧
    callbackSnapshot env0 8 2 st3 = (st3, []) :=
  ⟨(callbackSnapshot_spec env0 8 2 stRun).1 ⟨rfl, rfl⟩,
   (callbackSnapshot_spec env0 8 2 st3).2.1 (Or.inl rfl)⟩

/-- C9: for every intercepted signal, the signals user hook is invoked
first regardless of the trigger state and of the receiving thread, and if
the hook returns without triggering the restore path the process
terminates. -/
theorem callbackSignals_spec (hooks : UserHooks) (tid sig : Int) (s : TracerState) :
    ((callbackSignals hooks tid sig s).2.head? = some (Event.signalsHook tid sig)) ∧
    (hooks.signalsRestores = false →
      (callbackSignals hooks tid sig s).2 =
        [Event.signalsHook tid sig, Event.exitProcess]) := by
  by_cases h : hooks.signalsRestores = true <;> simp [callbackSignals, h]

/-- Witness for C9: with the trigger off (analysis never started) and a
hook that returns, thread 5 receiving signal 9 invokes the hook and the
process exits. -/
theorem callbackSignals_spec_witness :
    (callbackSignals hooksId 5 9 st0).2.head? = some (Event.signalsHook 5 9) ∧
    (callbackSignals hooksId 5 9 st0).2 =
      [Event.signalsHook 5 9, Event.exitProcess] :=
  ⟨(callbackSignals_spec hooksId 5 9 st0).1,
   (callbackSignals_spec hooksId 5 9 st0).2 rfl⟩

/-- The tracer-state component of the instruction loop of
`TRACE_Instrumentation` is exactly the fold of `checkUnlockAnalysis` over
the instruction addresses: the image filter influences only which
instructions get instrumented, never the unlock state. -/
theorem TRACE_state_eq (env : Env) (tid : Int) (inss : List InsInfo) :
    ∀ p : TracerState × List Nat,
      (inss.foldl (traceInstrumentationStep env tid) p).1 =
        inss.foldl (fun st i => (checkUnlockAnalysis env tid i.address st).2) p.1 := by
  induction inss with
  | nil => intro p; rfl
  | cons i rest ih =>
      intro p
      have hfst : (traceInstrumentationStep env tid p i).1 =
          (checkUnlockAnalysis env tid i.address p.1).2 := by
        simp only [traceInstrumentationStep]
        split_ifs <;> rfl
      show (rest.foldl (traceInstrumentationStep env tid)
              (traceInstrumentationStep env tid p i)).1 = _
      rw [ih (traceInstrumentationStep env tid p i), hfst]
      rfl

/-- C10: during trace instrumentation the unlock check runs for every
instruction address before and independently of the image filter — the
final unlock state is the plain fold of `checkUnlockAnalysis` over all
addresses — so an address inside an excluded image still claims the target
thread and flips the trigger on, while the filter merely suppresses the
instrumentation of that instruction. -/
theorem TRACE_Instrumentation_unlockIndependent (env : Env) (tid : Int)
    (ins : InsInfo) (s : TracerState)
    (h1 : s.opts.targetThreadId = -1)
    (h2 : s.opts.startAnalysisFromSymbol = none)
    (h3 : ins.address ∈ s.opts.startAnalysisFromAddr)
    (h4 : imageExcluded env s.opts ins.address = true) :
    (∀ (inss : List InsInfo) (s' : TracerState),
       (TRACE_Instrumentation env tid inss s').1 =
         inss.foldl (fun st i => (checkUnlockAnalysis env tid i.address st).2) s') ∧
    ((TRACE_Instrumentation env tid [ins] s).1.opts.targetThreadId = tid ∧
     (TRACE_Instrumentation env tid [ins] s).1.trigger = true ∧
     (TRACE_Instrumentation env tid [ins] s).2 = []) := by
  constructor
  · intro inss s'
    exact TRACE_state_eq env tid inss (s', [])
  · have hcu : checkUnlockAnalysis env tid ins.address s = (true, unlockAt tid s) := by
      simp [checkUnlockAnalysis, h1, h2, h3]
    have hexc : imageExcluded env (unlockAt tid s).opts ins.address = true := h4
    have htr : (unlockAt tid s).trigger = true := rfl
    have hstep : TRACE_Instrumentation env tid [ins] s = (unlockAt tid s, []) := by
      simp [TRACE_Instrumentation, traceInstrumentationStep, hcu, htr, hexc]
    rw [hstep]
    exact ⟨rfl, rfl, rfl⟩

/-- `st0` with the image blacklist matching every image of `env0`. -/
def stB : TracerState :=
  { st0 with opts := { opts0 with imageBlacklist := [['l', 'i', 'b']] } }

/-- Witness for C10: address 4096 lies in a blacklisted image, yet jitting
it claims thread 7 and flips the trigger on while instrumenting nothing. -/
theorem TRACE_Instrumentation_unlockIndependent_witness :
    (TRACE_Instrumentation env0 7 [{ address := 4096 }] stB).1.opts.targetThreadId = 7 ∧
    (TRACE_Instrumentation env0 7 [{ address := 4096 }] stB).1.trigger = true ∧
    (TRACE_Instrumentation env0 7 [{ address := 4096 }] stB).2 = [] :=
  (TRACE_Instrumentation_unlockIndependent env0 7 { address := 4096 } stB
    rfl rfl (by decide) (by decide)).2
